import Mathlib

/-!
# OpenCVJS.js: camera acquisition and the pose-detection loop

A shallow embedding of `src/OpenCVJS.js`.

* JavaScript numbers are rationals: comparisons are exact, and a division is the exact
  quotient (floating-point rounding is not modelled, nor is `NaN`).  A division by zero,
  which gives `Infinity` or `NaN` in JavaScript and `null` after `JSON.stringify`, is `none`.
* The module-level variables (`detector`, `selectedDeviceId`, `unityInstance`, `video`,
  `canvas`, `firstFrameSent`) are the first fields of `State`.  `ctx` is assigned together
  with `canvas` and is not a field of its own.  The styling of the two elements is left out.
* An `async` function runs to completion between two `await`s.  Every `await` of the source
  on a browser promise is a suspension point: the suspended continuation is an entry of
  `State.pending`, and an `Event` resumes it.  The order of the events is chosen by the
  browser and the host, so every interleaving is a list of events.  The three `await`s of
  `loadDetector` are one suspension.  When `setupCamera` or `loadDetector` returns, the rest
  of `StartPoseTracking` runs in the same step.
* Each `StartPoseTracking` call gets a number (the value of `State.calls` when it is made):
  its continuations, the detection loop it starts and the messages that loop sends carry that
  number.  The number is bookkeeping of the model only; the source has no such token.
* What the browser reports when `detectPose` runs (`video.readyState`, `video.videoWidth`,
  `video.videoHeight`, the outcome of `drawImage` and `toDataURL`, and whether a
  `SendMessage` call throws) is the input `TickEnv` of the event.
* `listCameras` (lines 10-34) writes none of the module-level variables and is left out:
  `State.sent` holds the messages sent by `detectPose`.  `State.errors` holds the
  `console.error` lines of `setupCamera`, `loadDetector` and `detectPose`; `console.log` is
  left out.
-/

namespace OpenCVJS

/-- A keypoint of a pose: pixel position and an optional confidence score. -/
structure Keypoint where
  x : ℚ
  y : ℚ
  score : Option ℚ
deriving DecidableEq

/-- A pose returned by `detector.estimatePoses`: `keypoints[i]` is `keypoints[i]?`. -/
structure Pose where
  keypoints : List Keypoint
deriving DecidableEq

/-- The messages `unityInstance.SendMessage` delivers to the host from `detectPose`.
The payload of `OnReceiveFootPosition` is the object `normalized` before
`JSON.stringify`. -/
inductive Msg where
  | OnReceiveVideoFrame (base64 : String)
  | OnCameraReady
  | OnReceiveFootPosition (x y : Option ℚ)
deriving DecidableEq

/-- A `MediaStream` returned by `getUserMedia`: one flag per track, `true` while the track is
live and `false` once `track.stop()` has been called. -/
structure MediaStream where
  tracks : List Bool
deriving DecidableEq

/-- The `video` element: `srcObject` refers to an entry of `State.streams`. -/
structure Video where
  srcObject : Option Nat
deriving DecidableEq

/-- The `canvas` element. -/
structure Canvas where
  width : Nat
  height : Nat
deriving DecidableEq

/-- The suspension points of the source.
* `getUserMedia`: `StartPoseTracking` inside `setupCamera`, at the `await` of line 79;
* `loadedmetadata`: the same, at the `await` of line 82;
* `loadDetector`: `StartPoseTracking` at the `await` of line 44;
* `animationFrame`: a `detectPose` callback registered by `requestAnimationFrame`;
* `estimatePoses`: `detectPose` at the `await` of line 156. -/
inductive Pending where
  | getUserMedia
  | loadedmetadata
  | loadDetector
  | animationFrame
  | estimatePoses
deriving DecidableEq

/-- The module state, the streams acquired so far, the suspended continuations, the host
messages sent by `detectPose` (oldest first, each with the number of the loop that sent it)
and the `console.error` lines. -/
structure State where
  detector : Bool
  selectedDeviceId : Option String
  unityInstance : Bool
  video : Option Video
  canvas : Option Canvas
  firstFrameSent : Bool
  streams : List MediaStream
  calls : Nat
  pending : List (Nat × Pending)
  sent : List (Nat × Msg)
  errors : List String
deriving DecidableEq

/-- Lines 1-7: the state when the script has been loaded. -/
def init : State :=
  { detector := false, selectedDeviceId := none, unityInstance := false, video := none,
    canvas := none, firstFrameSent := false, streams := [], calls := 0, pending := [],
    sent := [], errors := [] }

/-- What the browser reports during the synchronous part of one `detectPose` call. -/
structure TickEnv where
  readyState : Nat
  videoWidth : Nat
  videoHeight : Nat
  capture : Except String String
  sendThrows : Msg → Bool

/-- The expression `keypoint?.score ?? 0` of line 162. -/
def scoreOrZero (keypoint : Option Keypoint) : ℚ :=
  match keypoint with
  | none => 0
  | some k => k.score.getD 0

/-- Line 162: the left ankle when its score is strictly higher, else the right ankle. -/
def selectFoot (leftAnkle rightAnkle : Option Keypoint) : Option Keypoint :=
  if scoreOrZero leftAnkle > scoreOrZero rightAnkle then leftAnkle else rightAnkle

/-- The condition `foot && foot.score > 0.3` of line 164 (an undefined score compares
false). -/
def accepted (foot : Option Keypoint) : Option Keypoint :=
  match foot with
  | none => none
  | some f =>
    match f.score with
    | none => none
    | some sc => if sc > 3 / 10 then some f else none

/-- JavaScript division of a number by a canvas dimension, as `JSON.stringify` shows it. -/
def jsDiv (a : ℚ) (b : Nat) : Option ℚ :=
  if b = 0 then none else some (a / b)

/-- Lines 165-168: the object `normalized`. -/
def normalize (foot : Keypoint) (c : Canvas) : Msg :=
  .OnReceiveFootPosition (jsDiv foot.x c.width) (jsDiv foot.y c.height)

/-- Lines 157-164: the keypoint that passes the test of line 164, if any. -/
def footOf (poses : List Pose) : Option Keypoint :=
  match poses with
  | [] => none
  | p :: _ => accepted (selectFoot p.keypoints[15]? p.keypoints[16]?)

/-- How the synchronous part of `detectPose` (lines 135-156) ends. -/
inductive BeginOutcome where
  | skipped
  | suspended
  | threw
deriving DecidableEq

/-- Lines 135-156 of `detectPose`, up to the `await` of `estimatePoses`: the new state, the
messages sent and how the part ends.  `skipped` is the early return of lines 135-138 (the
caller registers the next callback); `threw` is an exception outside the `try` of line 155,
which rejects the promise of `detectPose`. -/
def detectPoseBegin (s : State) (env : TickEnv) : State × List Msg × BeginOutcome :=
  if !s.detector || s.video.isNone || decide (env.readyState < 2) then (s, [], .skipped)
  else
    match s.canvas with
    | none => (s, [], .threw)
    | some _ =>
      let s1 := { s with canvas := some { width := env.videoWidth, height := env.videoHeight } }
      match env.capture with
      | .error _ => (s1, [], .threw)
      | .ok base64 =>
        if s1.unityInstance then
          if env.sendThrows (.OnReceiveVideoFrame base64) then (s1, [], .threw)
          else if !s1.firstFrameSent then
            if env.sendThrows .OnCameraReady then (s1, [.OnReceiveVideoFrame base64], .threw)
            else ({ s1 with firstFrameSent := true },
              [.OnReceiveVideoFrame base64, .OnCameraReady], .suspended)
          else (s1, [.OnReceiveVideoFrame base64], .suspended)
        else (s1, [], .suspended)

/-- Lines 156-176 of `detectPose`, from the result of `estimatePoses` to the end of the
`try`/`catch`: the new state and the messages sent.  Every exception in this part is caught
and logged. -/
def detectPoseResume (s : State) (r : Except String (List Pose)) (sendThrows : Msg → Bool) :
    State × List Msg :=
  match r with
  | .error e => ({ s with errors := s.errors ++ ["Pose detection error: " ++ e] }, [])
  | .ok poses =>
    match footOf poses with
    | none => (s, [])
    | some foot =>
      match s.canvas with
      | none => ({ s with errors := s.errors ++ ["Pose detection error: TypeError"] }, [])
      | some c =>
        if s.unityInstance then
          if sendThrows (normalize foot c) then
            ({ s with errors := s.errors ++ ["Pose detection error: SendMessage"] }, [])
          else (s, [normalize foot c])
        else (s, [])

/-- The messages `ms` sent by loop `k`. -/
def tagged (k : Nat) (ms : List Msg) : List (Nat × Msg) :=
  ms.map (fun m => (k, m))

/-- A call of `detectPose` for loop `k`, up to its first suspension or return. -/
def detectPose (s : State) (k : Nat) (env : TickEnv) : State :=
  match detectPoseBegin s env with
  | (s1, ms, .skipped) =>
    { s1 with sent := s1.sent ++ tagged k ms, pending := s1.pending ++ [(k, .animationFrame)] }
  | (s1, ms, .suspended) =>
    { s1 with sent := s1.sent ++ tagged k ms, pending := s1.pending ++ [(k, .estimatePoses)] }
  | (s1, ms, .threw) => { s1 with sent := s1.sent ++ tagged k ms }

/-- The rest of `detectPose` for loop `k` once `estimatePoses` has settled (lines 156-178):
the `try`/`catch` and the `requestAnimationFrame` of line 178. -/
def detectPoseAfter (s : State) (k : Nat) (r : Except String (List Pose))
    (sendThrows : Msg → Bool) : State :=
  match detectPoseResume s r sendThrows with
  | (s1, ms) =>
    { s1 with sent := s1.sent ++ tagged k ms, pending := s1.pending ++ [(k, .animationFrame)] }

/-- The statement `track.stop()` on every track of stream `i` (line 53). -/
def stopTracks (streams : List MediaStream) (i : Nat) : List MediaStream :=
  match streams[i]? with
  | none => streams
  | some st => streams.set i { tracks := st.tracks.map (fun _ => false) }

/-- Lines 52-55 of `setupCamera`: stop the tracks of the active stream and clear the
handle. -/
def releaseStream (s : State) : State :=
  match s.video with
  | none => s
  | some v =>
    match v.srcObject with
    | none => s
    | some i => { s with streams := stopTracks s.streams i, video := some { srcObject := none } }

/-- Lines 57-70 of `setupCamera`: create the `video` element when there is none. -/
def ensureVideo (s : State) : State :=
  match s.video with
  | none => { s with video := some { srcObject := none } }
  | some _ => s

/-- Lines 51-79 of `setupCamera`, run for call `k`: everything up to the `await` of
`getUserMedia`, where the call is suspended. -/
def setupCamera (s : State) (k : Nat) : State :=
  let s1 := ensureVideo (releaseStream s)
  { s1 with pending := s1.pending ++ [(k, .getUserMedia)] }

/-- Lines 38-42 of `StartPoseTracking`: the two assignments and the call of `setupCamera`.
The call gets the number `s.calls`. -/
def StartPoseTracking (s : State) (deviceId : String) : State :=
  setupCamera
    { s with selectedDeviceId := some deviceId, firstFrameSent := false, calls := s.calls + 1 }
    s.calls

/-- Line 183 of `RegisterUnityInstance`: the assignment of `unityInstance`; `attached` is
whether the value is truthy. -/
def RegisterUnityInstance (s : State) (attached : Bool) : State :=
  { s with unityInstance := attached }

/-- Lines 43-46 of `StartPoseTracking`, after `setupCamera` has returned. -/
def afterSetupCamera (s : State) (k : Nat) (env : TickEnv) : State :=
  if !s.detector then { s with pending := s.pending ++ [(k, .loadDetector)] }
  else detectPose s k env

/-- Line 80 of `setupCamera`: `getUserMedia` resolved with a stream of `n` live tracks. -/
def attachStream (s : State) (k : Nat) (n : Nat) : State :=
  { s with
    streams := s.streams ++ [{ tracks := List.replicate n true }],
    video := some { srcObject := some s.streams.length },
    pending := s.pending ++ [(k, .loadedmetadata)] }

/-- Lines 94-109 of `setupCamera`: create the canvas when there is none and size it. -/
def sizeCanvas (s : State) (env : TickEnv) : State :=
  { s with canvas := some { width := env.videoWidth, height := env.videoHeight } }

/-- Lines 111-113 of `setupCamera`: the `catch`. -/
def logSetupError (s : State) (err : String) : State :=
  { s with errors := s.errors ++ ["Error setting up camera: " ++ err] }

/-- The function `loadDetector` (lines 117-131) once its `await`s have settled: the detector
is stored, or the error is caught and logged. -/
def loadDetector (s : State) (loaded : Except String Unit) : State :=
  match loaded with
  | .ok _ => { s with detector := true }
  | .error err => { s with errors := s.errors ++ ["Error loading pose detector: " ++ err] }

/-- What the host and the browser can do next.
* `RegisterUnityInstance instance`: the host registers (`true`) an instance, line 183;
* `StartPoseTracking deviceId`: the host issues a start command;
* `getUserMediaResolve k n`, `getUserMediaReject k err env`: the acquisition of call `k`
  settles;
* `metadataPlayed k env`: the promise of line 82 of call `k` resolves;
* `loadDetectorSettle k loaded env`: `loadDetector` of call `k` finishes;
* `animationFrame k env`: the browser runs the scheduled callback of loop `k`;
* `estimatePosesSettle k r sendThrows`: the inference of loop `k` settles.

An event that ends the `await`s of `StartPoseTracking` carries a `TickEnv` because line 46
calls `detectPose` at once. -/
inductive Event where
  | RegisterUnityInstance (attached : Bool)
  | StartPoseTracking (deviceId : String)
  | getUserMediaResolve (k : Nat) (n : Nat)
  | getUserMediaReject (k : Nat) (err : String) (env : TickEnv)
  | metadataPlayed (k : Nat) (env : TickEnv)
  | loadDetectorSettle (k : Nat) (loaded : Except String Unit) (env : TickEnv)
  | animationFrame (k : Nat) (env : TickEnv)
  | estimatePosesSettle (k : Nat) (r : Except String (List Pose)) (sendThrows : Msg → Bool)

/-- Remove the continuation `(k, p)` from the suspended ones, if it is there. -/
def resume (s : State) (k : Nat) (p : Pending) : Option State :=
  if (k, p) ∈ s.pending then some { s with pending := s.pending.erase (k, p) } else none

/-- One step of the system: `none` when the event names a continuation that is not
suspended. -/
def step (s : State) (e : Event) : Option State :=
  match e with
  | .RegisterUnityInstance attached => some (RegisterUnityInstance s attached)
  | .StartPoseTracking deviceId => some (StartPoseTracking s deviceId)
  | .getUserMediaResolve k n => (resume s k .getUserMedia).map (fun s1 => attachStream s1 k n)
  | .getUserMediaReject k err env =>
    (resume s k .getUserMedia).map (fun s1 => afterSetupCamera (logSetupError s1 err) k env)
  | .metadataPlayed k env =>
    (resume s k .loadedmetadata).map (fun s1 => afterSetupCamera (sizeCanvas s1 env) k env)
  | .loadDetectorSettle k loaded env =>
    (resume s k .loadDetector).map (fun s1 => detectPose (loadDetector s1 loaded) k env)
  | .animationFrame k env => (resume s k .animationFrame).map (fun s1 => detectPose s1 k env)
  | .estimatePosesSettle k r sendThrows =>
    (resume s k .estimatePoses).map (fun s1 => detectPoseAfter s1 k r sendThrows)

/-- Run a list of events from a state. -/
def run (s : State) (es : List Event) : Option State :=
  match es with
  | [] => some s
  | e :: rest => (step s e).bind (fun s1 => run s1 rest)

/-- The number of `detectPose` ticks that are scheduled or executing. -/
def ticks (s : State) : Nat :=
  (s.pending.filter (fun e => e.2 = .animationFrame ∨ e.2 = .estimatePoses)).length

/-- The number of `estimatePoses` calls in flight. -/
def inferences (s : State) : Nat :=
  (s.pending.filter (fun e => e.2 = .estimatePoses)).length

/-- The number of acquired streams that still have a live track. -/
def liveStreams (s : State) : Nat :=
  (s.streams.filter (fun st => st.tracks.any id)).length

/-- A browser report of a video that is playing a `w` by `h` stream, with no failure. -/
def playing (w h : Nat) : TickEnv :=
  { readyState := 4, videoWidth := w, videoHeight := h, capture := .ok "data:image/jpeg",
    sendThrows := fun _ => false }

/-- A browser report of a video that has no data yet. -/
def notReady : TickEnv :=
  { readyState := 0, videoWidth := 0, videoHeight := 0, capture := .ok "data:image/jpeg",
    sendThrows := fun _ => false }

/-- A pose whose keypoints 15 and 16 are `l` and `r`; the fifteen keypoints before them are
at the origin with score 0. -/
def poseWith (l r : Keypoint) : Pose :=
  { keypoints := List.replicate 15 { x := 0, y := 0, score := some 0 } ++ [l, r] }

/-- Whether a message is a landmark message. -/
def isLandmark (m : Msg) : Bool :=
  match m with
  | .OnReceiveFootPosition _ _ => true
  | _ => false

/-- The events of a start command whose camera acquisition and detector initialisation both
fail. -/
def failedStartTrace : List Event :=
  [ .StartPoseTracking "cam-1", .getUserMediaReject 0 "NotFoundError" notReady,
    .loadDetectorSettle 0 (.error "webgl") notReady ]

/-- Whether an event is a start command. -/
def isStart (e : Event) : Bool :=
  match e with
  | .StartPoseTracking _ => true
  | _ => false

/-- The number of start commands among the events. -/
def starts (es : List Event) : Nat :=
  (es.filter isStart).length

/-- The number of `OnCameraReady` messages in a list of sent messages. -/
def readies (l : List (Nat × Msg)) : Nat :=
  (l.filter (fun e => e.2 = .OnCameraReady)).length

/-- The events of two start commands, the second one issued while the loop of the first one
is running: both loops end up awaiting an inference. -/
def twoLoopsTrace : List Event :=
  [ .StartPoseTracking "cam-1", .getUserMediaResolve 0 1, .metadataPlayed 0 (playing 320 240),
    .loadDetectorSettle 0 (.ok ()) (playing 320 240), .StartPoseTracking "cam-2",
    .getUserMediaResolve 1 1, .metadataPlayed 1 (playing 640 480) ]

/-- Every suspended continuation belongs to a call already made, and no call has two. -/
def Inv (s : State) : Prop :=
  (s.pending.map Prod.fst).Nodup ∧ ∀ e ∈ s.pending, e.1 < s.calls

/-- The events of one start command that succeeds, up to the first tick awaiting its
inference. -/
def oneLoopTrace : List Event :=
  [ .StartPoseTracking "cam-1", .getUserMediaResolve 0 1, .metadataPlayed 0 (playing 320 240),
    .loadDetectorSettle 0 (.ok ()) (playing 320 240) ]

/-- The relation between a state and a later one when no start command lies in between:
`OnCameraReady` has been sent once more exactly when `firstFrameSent` went from `false` to
`true`, and `firstFrameSent` never goes back to `false`. -/
def ReadyStep (s s1 : State) : Prop :=
  readies s1.sent = readies s.sent +
    (if s.firstFrameSent then 0 else if s1.firstFrameSent then 1 else 0) ∧
  (s.firstFrameSent = true → s1.firstFrameSent = true)

/-- The events of a device switch whose `video.play()` has not started playback when the
promise of line 82 resolves (`readyState` 1): the first `detectPose` call of the new loop is
a skipped frame, and at the next animation frame the callback of the old loop, registered
first, runs first. -/
def switchTrace : List Event :=
  [ .RegisterUnityInstance true, .StartPoseTracking "cam-1", .getUserMediaResolve 0 1,
    .metadataPlayed 0 (playing 320 240), .loadDetectorSettle 0 (.ok ()) (playing 320 240),
    .estimatePosesSettle 0 (.ok []) (fun _ => false), .StartPoseTracking "cam-2",
    .getUserMediaResolve 1 1, .metadataPlayed 1 { playing 640 480 with readyState := 1 },
    .animationFrame 0 (playing 640 480), .animationFrame 1 (playing 640 480) ]

/-- The events after one start command, with no further start command: the stream is
acquired, the detector loads, and two ticks deliver a frame. -/
def afterStartTrace : List Event :=
  [ .getUserMediaResolve 0 1, .metadataPlayed 0 (playing 320 240),
    .loadDetectorSettle 0 (.ok ()) (playing 320 240),
    .estimatePosesSettle 0 (.ok []) (fun _ => false), .animationFrame 0 (playing 320 240) ]

/-- The events of two start commands, the second one issued before the acquisition of the
first one has resolved. -/
def overlappingStartsTrace : List Event :=
  [ .StartPoseTracking "cam-1", .StartPoseTracking "cam-2", .getUserMediaResolve 0 1,
    .getUserMediaResolve 1 1 ]

/-- A state of the steady cycle, reached by `oneLoopTrace` followed by the registration of
the host: host attached, detector loaded, stream 0 attached to the video, a 320 by 240
canvas, and the first tick of loop 0 awaiting its inference, no frame sent yet. -/
def streaming : State :=
  { detector := true, selectedDeviceId := some "cam-1", unityInstance := true,
    video := some { srcObject := some 0 }, canvas := some { width := 320, height := 240 },
    firstFrameSent := false, streams := [{ tracks := [true] }], calls := 1,
    pending := [(0, .estimatePoses)], sent := [], errors := [] }

/-- The state `streaming` when the inference has settled with no pose: the next callback of
loop 0 is scheduled. -/
def scheduled : State :=
  { streaming with pending := [(0, .animationFrame)] }

/-- A pose whose left ankle, at (10, 20), scores 0.2 and whose right ankle is missing (the
list has sixteen keypoints); the fifteen keypoints before have no score. -/
def lowPose : Pose :=
  { keypoints := List.replicate 15 { x := 0, y := 0, score := none } ++
      [{ x := 10, y := 20, score := some (1 / 5) }] }

/-- The state after a start command whose acquisition has succeeded, while the detector is
being loaded for the first time. -/
def loading : State :=
  { detector := false, selectedDeviceId := some "cam-1", unityInstance := false,
    video := some { srcObject := some 0 }, canvas := some { width := 320, height := 240 },
    firstFrameSent := false, streams := [{ tracks := [true] }], calls := 1,
    pending := [(0, .loadDetector)], sent := [], errors := [] }

/-! ## The named states are reachable -/

theorem loading_reachable :
    run init [.StartPoseTracking "cam-1", .getUserMediaResolve 0 1,
      .metadataPlayed 0 (playing 320 240)] = some loading := by
  with_unfolding_all decide

theorem streaming_reachable :
    run init (oneLoopTrace ++ [.RegisterUnityInstance true]) = some streaming := by
  with_unfolding_all decide

theorem scheduled_reachable :
    run init (oneLoopTrace ++ [.RegisterUnityInstance true,
      .estimatePosesSettle 0 (.ok []) (fun _ => false)]) = some scheduled := by
  with_unfolding_all decide

/-! ## The synchronous part of a tick -/

theorem detectPoseBegin_msgs (s : State) (env : TickEnv) :
    (detectPoseBegin s env).2.1 = [] ∨
    (∃ b, (detectPoseBegin s env).2.1 = [.OnReceiveVideoFrame b]) ∨
    (∃ b, (detectPoseBegin s env).2.1 = [.OnReceiveVideoFrame b, .OnCameraReady]) := by
  unfold detectPoseBegin
  split
  · simp
  · split
    · simp
    · split
      · simp
      · dsimp only
        split
        · split
          · simp
          · split
            · split <;> simp
            · simp
        · simp

theorem detectPoseBegin_pending (s : State) (env : TickEnv) :
    (detectPoseBegin s env).1.pending = s.pending ∧ (detectPoseBegin s env).1.calls = s.calls ∧
    (detectPoseBegin s env).1.sent = s.sent ∧ (detectPoseBegin s env).1.streams = s.streams ∧
    (detectPoseBegin s env).1.errors = s.errors := by
  unfold detectPoseBegin
  split
  · simp
  · split
    · simp
    · split
      · simp
      · dsimp only
        split
        · split
          · simp
          · split
            · split <;> simp
            · simp
        · simp

theorem detectPoseResume_msgs (s : State) (r : Except String (List Pose)) (st : Msg → Bool) :
    (detectPoseResume s r st).2 = [] ∨
    ∃ foot c, footOf (r.toOption.getD []) = some foot ∧ s.canvas = some c ∧
      s.unityInstance = true ∧ (detectPoseResume s r st).2 = [normalize foot c] := by
  unfold detectPoseResume
  cases r with
  | error e => simp
  | ok poses =>
    dsimp only
    cases hf : footOf poses with
    | none => simp
    | some foot =>
      cases hc : s.canvas with
      | none => simp
      | some c =>
        by_cases hu : s.unityInstance = true
        · by_cases ht : st (normalize foot c) = true
          · simp [hu, ht]
          · right
            exact ⟨foot, c, by simp [Except.toOption, hf], rfl, hu, by simp [hu, ht]⟩
        · simp [hu]

theorem detectPoseResume_pending (s : State) (r : Except String (List Pose))
    (st : Msg → Bool) :
    (detectPoseResume s r st).1.pending = s.pending ∧
    (detectPoseResume s r st).1.calls = s.calls ∧
    (detectPoseResume s r st).1.sent = s.sent ∧
    (detectPoseResume s r st).1.streams = s.streams ∧
    (detectPoseResume s r st).1.firstFrameSent = s.firstFrameSent := by
  unfold detectPoseResume
  cases r with
  | error e => simp
  | ok poses =>
    dsimp only
    cases footOf poses with
    | none => simp
    | some foot =>
      cases s.canvas with
      | none => simp
      | some c =>
        by_cases hu : s.unityInstance = true
        · by_cases ht : st (normalize foot c) = true <;> simp [hu, ht]
        · simp [hu]

theorem accepted_eq_some {foot : Option Keypoint} {f : Keypoint} (h : accepted foot = some f) :
    foot = some f ∧ ∃ sc, f.score = some sc ∧ 3 / 10 < sc := by
  unfold accepted at h
  cases foot with
  | none => simp at h
  | some g =>
    cases hs : g.score with
    | none => simp [hs] at h
    | some sc =>
      simp only [hs] at h
      by_cases hlt : sc > 3 / 10
      · simp only [hlt, if_true, Option.some.injEq] at h
        subst h
        exact ⟨rfl, sc, hs, hlt⟩
      · simp [hlt] at h

theorem footOf_low (p : Pose) (rest : List Pose)
    (hl : scoreOrZero p.keypoints[15]? ≤ 3 / 10) (hr : scoreOrZero p.keypoints[16]? ≤ 3 / 10) :
    footOf (p :: rest) = none := by
  cases hf : footOf (p :: rest) with
  | none => rfl
  | some f =>
    exfalso
    obtain ⟨hsel, sc, hsc, hlt⟩ := accepted_eq_some hf
    have hz : scoreOrZero (some f) = sc := by simp [scoreOrZero, hsc]
    unfold selectFoot at hsel
    split at hsel
    · rw [hsel, hz] at hl
      exact absurd hlt (not_lt.mpr hl)
    · rw [hsel, hz] at hr
      exact absurd hlt (not_lt.mpr hr)

theorem footOf_higher (p : Pose) (rest : List Pose) (b : Option Keypoint) (f : Keypoint)
    (sc : ℚ) (hsc : f.score = some sc) (hgt : scoreOrZero b < sc) (hacc : 3 / 10 < sc)
    (hpos : (p.keypoints[15]? = some f ∧ p.keypoints[16]? = b) ∨
      (p.keypoints[16]? = some f ∧ p.keypoints[15]? = b)) :
    footOf (p :: rest) = some f := by
  have hz : scoreOrZero (some f) = sc := by simp [scoreOrZero, hsc]
  have hok : accepted (some f) = some f := by simp [accepted, hsc, hacc]
  rcases hpos with ⟨h15, h16⟩ | ⟨h16, h15⟩
  · simp only [footOf, h15, h16, selectFoot, hz, gt_iff_lt, hgt, if_true, hok]
  · have hn : ¬ scoreOrZero b > sc := not_lt.mpr (le_of_lt hgt)
    simp only [footOf, h15, h16, selectFoot, hz, hn, if_false, hok]

theorem detectPoseResume_send (s : State) (poses : List Pose) (st : Msg → Bool)
    (foot : Keypoint) (c : Canvas) (hf : footOf poses = some foot) (hc : s.canvas = some c)
    (hu : s.unityInstance = true) (ht : st (normalize foot c) = false) :
    detectPoseResume s (.ok poses) st = (s, [normalize foot c]) := by
  simp [detectPoseResume, hf, hc, hu, ht]

theorem step_estimatePosesSettle (s : State) (k : Nat) (r : Except String (List Pose))
    (st : Msg → Bool) (h : (k, Pending.estimatePoses) ∈ s.pending) :
    step s (.estimatePosesSettle k r st) =
      some (detectPoseAfter { s with pending := s.pending.erase (k, .estimatePoses) } k r st) := by
  simp [step, resume, h]

/-! ## Selection and normalisation of the landmark (C1, C2, C3) -/

/-- C1: when keypoints 15 and 16 of the pose both score at most 0.3 (a missing keypoint or a
missing score counting as 0), the tick sends no `OnReceiveFootPosition`: the part of
`detectPose` before the inference never sends one, the part after it sends nothing, and the
step of the system that settles the inference of loop `k` leaves the list of sent messages
unchanged. -/
theorem C1_low_scores_send_no_landmark (s0 s : State) (env : TickEnv) (k : Nat) (p : Pose)
    (rest : List Pose) (st : Msg → Bool)
    (hk : (k, Pending.estimatePoses) ∈ s.pending)
    (hl : scoreOrZero p.keypoints[15]? ≤ 3 / 10)
    (hr : scoreOrZero p.keypoints[16]? ≤ 3 / 10) :
    (∀ m ∈ (detectPoseBegin s0 env).2.1, isLandmark m = false) ∧
    (detectPoseResume s (.ok (p :: rest)) st).2 = [] ∧
    (∃ s1, step s (.estimatePosesSettle k (.ok (p :: rest)) st) = some s1 ∧
      s1.sent = s.sent) := by
  have hfoot := footOf_low p rest hl hr
  have hres : detectPoseResume s (.ok (p :: rest)) st = (s, []) := by
    simp [detectPoseResume, hfoot]
  refine ⟨?_, by rw [hres], ?_⟩
  · intro m hm
    rcases detectPoseBegin_msgs s0 env with h | ⟨b, h⟩ | ⟨b, h⟩ <;> rw [h] at hm <;>
      simp at hm
    · subst hm; rfl
    · rcases hm with hm | hm <;> subst hm <;> rfl
  · rw [step_estimatePosesSettle s k _ st hk]
    refine ⟨_, rfl, ?_⟩
    simp [detectPoseAfter, detectPoseResume, hfoot, tagged]

/-- In `streaming`, a pose whose left ankle scores 0.2 and whose right ankle is missing sends
nothing. -/
theorem C1_low_scores_send_no_landmark_witness :
    (∀ m ∈ (detectPoseBegin scheduled (playing 320 240)).2.1, isLandmark m = false) ∧
    (detectPoseResume streaming (.ok [lowPose]) (fun _ => false)).2 = [] ∧
    (∃ s1, step streaming (.estimatePosesSettle 0 (.ok [lowPose]) (fun _ => false)) = some s1 ∧
      s1.sent = streaming.sent) :=
  C1_low_scores_send_no_landmark scheduled streaming (playing 320 240) 0 lowPose []
    (fun _ => false) (by simp [streaming])
    (by simp [lowPose, scoreOrZero, List.replicate]; norm_num)
    (by simp [lowPose, scoreOrZero, List.replicate]; norm_num)

/-- C2: when one ankle keypoint `f` (at index 15 or at index 16) has a score above 0.3 and
strictly above the score of the other ankle `b` (0 when `b` or its score is missing), then
with a host attached the tick sends exactly one landmark, computed from the coordinates of
`f` and the canvas size; the position of `b` plays no part. -/
theorem C2_higher_score_selected (s : State) (c : Canvas) (p : Pose) (rest : List Pose)
    (st : Msg → Bool) (f : Keypoint) (b : Option Keypoint) (sc : ℚ)
    (hu : s.unityInstance = true) (hc : s.canvas = some c)
    (ht : st (normalize f c) = false)
    (hsc : f.score = some sc) (hgt : scoreOrZero b < sc) (hacc : 3 / 10 < sc)
    (hpos : (p.keypoints[15]? = some f ∧ p.keypoints[16]? = b) ∨
      (p.keypoints[16]? = some f ∧ p.keypoints[15]? = b)) :
    (detectPoseResume s (.ok (p :: rest)) st).2 =
      [.OnReceiveFootPosition (jsDiv f.x c.width) (jsDiv f.y c.height)] := by
  have hf := footOf_higher p rest b f sc hsc hgt hacc hpos
  rw [detectPoseResume_send s (p :: rest) st f c hf hc hu ht]
  rfl

/-- The right ankle at (200, 100) with score 0.8 wins over the left ankle with score 0.5. -/
theorem C2_higher_score_selected_witness :
    (detectPoseResume streaming
      (.ok [poseWith { x := 7, y := 9, score := some (1 / 2) }
        { x := 200, y := 100, score := some (4 / 5) }]) (fun _ => false)).2 =
      [.OnReceiveFootPosition (jsDiv 200 320) (jsDiv 100 240)] :=
  C2_higher_score_selected streaming ⟨320, 240⟩
    (poseWith { x := 7, y := 9, score := some (1 / 2) }
      { x := 200, y := 100, score := some (4 / 5) }) [] (fun _ => false)
    { x := 200, y := 100, score := some (4 / 5) }
    (some { x := 7, y := 9, score := some (1 / 2) }) (4 / 5)
    rfl rfl rfl rfl (by simp [scoreOrZero]; norm_num) (by norm_num)
    (Or.inr ⟨by simp [poseWith, List.replicate], by simp [poseWith, List.replicate]⟩)

theorem detectPoseBegin_skipped (s : State) (env : TickEnv)
    (h : s.detector = false ∨ s.video = none ∨ env.readyState < 2) :
    detectPoseBegin s env = (s, [], .skipped) := by
  unfold detectPoseBegin
  rw [if_pos]
  rcases h with h | h | h
  · simp [h]
  · simp [h]
  · simp [h]

theorem step_animationFrame (s : State) (k : Nat) (env : TickEnv)
    (h : (k, Pending.animationFrame) ∈ s.pending) :
    step s (.animationFrame k env) =
      some (detectPose { s with pending := s.pending.erase (k, .animationFrame) } k env) := by
  simp [step, resume, h]

theorem detectPose_pending (s : State) (k : Nat) (env : TickEnv) :
    (detectPose s k env).pending = s.pending ++
      (match (detectPoseBegin s env).2.2 with
        | .skipped => [(k, .animationFrame)]
        | .suspended => [(k, .estimatePoses)]
        | .threw => []) ∧
    (detectPose s k env).calls = s.calls ∧
    (detectPose s k env).errors = s.errors ∧
    (detectPose s k env).streams = s.streams ∧
    (detectPose s k env).sent = s.sent ++ tagged k (detectPoseBegin s env).2.1 := by
  have hp := detectPoseBegin_pending s env
  unfold detectPose
  rcases hb : detectPoseBegin s env with ⟨s1, ms, o⟩
  rw [hb] at hp
  obtain ⟨h1, h2, h3, h4, h5⟩ := hp
  dsimp only at h1 h2 h3 h4 h5
  cases o <;> simp [h1, h2, h3, h4, h5]

theorem detectPoseAfter_pending (s : State) (k : Nat) (r : Except String (List Pose))
    (st : Msg → Bool) :
    (detectPoseAfter s k r st).pending = s.pending ++ [(k, .animationFrame)] ∧
    (detectPoseAfter s k r st).calls = s.calls ∧
    (detectPoseAfter s k r st).streams = s.streams ∧
    (detectPoseAfter s k r st).firstFrameSent = s.firstFrameSent ∧
    (detectPoseAfter s k r st).sent = s.sent ++ tagged k (detectPoseResume s r st).2 := by
  have hp := detectPoseResume_pending s r st
  unfold detectPoseAfter
  rcases hb : detectPoseResume s r st with ⟨s1, ms⟩
  rw [hb] at hp
  obtain ⟨h1, h2, h3, h4, h5⟩ := hp
  dsimp only at h1 h2 h3 h4 h5
  simp [h1, h2, h3, h4, h5]

theorem step_getUserMediaReject (s : State) (k : Nat) (err : String) (env : TickEnv)
    (h : (k, Pending.getUserMedia) ∈ s.pending) :
    step s (.getUserMediaReject k err env) =
      some (afterSetupCamera
        (logSetupError { s with pending := s.pending.erase (k, .getUserMedia) } err) k env) := by
  simp [step, resume, h]

theorem step_loadDetectorSettle (s : State) (k : Nat) (loaded : Except String Unit)
    (env : TickEnv) (h : (k, Pending.loadDetector) ∈ s.pending) :
    step s (.loadDetectorSettle k loaded env) =
      some (detectPose
        (loadDetector { s with pending := s.pending.erase (k, .loadDetector) } loaded)
        k env) := by
  simp [step, resume, h]

/-- C9, as the code has it.  A failed acquisition is logged by `setupCamera` and
`StartPoseTracking` goes on (the step is defined, so the caller does not throw): with no
detector it waits for `loadDetector`, and with a detector it calls `detectPose` at once.  A
failed detector initialisation is logged by `loadDetector` and `StartPoseTracking` goes on
to call `detectPose`: with the detector still missing that first tick is a skipped frame,
which sends nothing and registers the next callback of the loop. -/
theorem C9_failed_start_still_loops (s t u : State) (k j i : Nat) (err : String)
    (env : TickEnv)
    (hs : (k, Pending.getUserMedia) ∈ s.pending) (hsd : s.detector = false)
    (ht : (j, Pending.loadDetector) ∈ t.pending) (htd : t.detector = false)
    (hu : (i, Pending.getUserMedia) ∈ u.pending) (hud : u.detector = true) :
    (∃ s1, step s (.getUserMediaReject k err env) = some s1 ∧
      s1.errors = s.errors ++ ["Error setting up camera: " ++ err] ∧
      s1.pending = s.pending.erase (k, .getUserMedia) ++ [(k, .loadDetector)] ∧
      s1.sent = s.sent) ∧
    (∃ t1, step t (.loadDetectorSettle j (.error err) env) = some t1 ∧
      t1.errors = t.errors ++ ["Error loading pose detector: " ++ err] ∧
      t1.pending = t.pending.erase (j, .loadDetector) ++ [(j, .animationFrame)] ∧
      t1.sent = t.sent) ∧
    step u (.getUserMediaReject i err env) =
      some (detectPose
        (logSetupError { u with pending := u.pending.erase (i, .getUserMedia) } err) i env) := by
  refine ⟨?_, ?_, ?_⟩
  · rw [step_getUserMediaReject s k err env hs]
    refine ⟨_, rfl, ?_, ?_, ?_⟩ <;> simp [afterSetupCamera, logSetupError, hsd]
  · rw [step_loadDetectorSettle t j _ env ht]
    refine ⟨_, rfl, ?_, ?_, ?_⟩
    · rw [(detectPose_pending _ j env).2.2.1]
      simp [loadDetector]
    · rw [(detectPose_pending _ j env).1, detectPoseBegin_skipped _ env
        (Or.inl (by simp [loadDetector, htd]))]
      simp [loadDetector]
    · rw [(detectPose_pending _ j env).2.2.2.2, detectPoseBegin_skipped _ env
        (Or.inl (by simp [loadDetector, htd]))]
      simp [loadDetector, tagged]
  · rw [step_getUserMediaReject u i err env hu]
    simp [afterSetupCamera, logSetupError, hud]

/-- The acquisition of the first call fails (state after the start command); the detector
load of the first call fails (`loading`); the acquisition of a second call fails when the
detector is there (`streaming` after a second start command). -/
theorem C9_failed_start_still_loops_witness :
    (∃ s1, step (StartPoseTracking init "cam-1")
        (.getUserMediaReject 0 "NotFoundError" notReady) = some s1 ∧
      s1.errors = (StartPoseTracking init "cam-1").errors ++
        ["Error setting up camera: " ++ "NotFoundError"] ∧
      s1.pending = (StartPoseTracking init "cam-1").pending.erase (0, .getUserMedia) ++
        [(0, .loadDetector)] ∧
      s1.sent = (StartPoseTracking init "cam-1").sent) ∧
    (∃ t1, step loading (.loadDetectorSettle 0 (.error "NotFoundError") notReady) = some t1 ∧
      t1.errors = loading.errors ++ ["Error loading pose detector: " ++ "NotFoundError"] ∧
      t1.pending = loading.pending.erase (0, .loadDetector) ++ [(0, .animationFrame)] ∧
      t1.sent = loading.sent) ∧
    step (StartPoseTracking streaming "cam-2")
        (.getUserMediaReject 1 "NotFoundError" notReady) =
      some (detectPose
        (logSetupError { (StartPoseTracking streaming "cam-2") with
          pending := (StartPoseTracking streaming "cam-2").pending.erase (1, .getUserMedia) }
          "NotFoundError") 1 notReady) :=
  C9_failed_start_still_loops (StartPoseTracking init "cam-1") loading
    (StartPoseTracking streaming "cam-2") 0 0 1 "NotFoundError" notReady
    (by with_unfolding_all decide) rfl (by simp [loading]) rfl (by with_unfolding_all decide)
    rfl

/-- C9 fails as stated: after a start command whose acquisition and detector initialisation
both fail, both errors are logged and a `detectPose` callback of loop 0 is scheduled: the
loop was started. -/
theorem C9_loop_started_after_failures :
    (run init failedStartTrace).map (fun s => (s.pending, ticks s, s.errors)) =
      some ([(0, .animationFrame)], 1,
        ["Error setting up camera: NotFoundError", "Error loading pose detector: webgl"]) := by
  with_unfolding_all decide

/-! ## Suspended continuations: how many loops run (C5) -/

theorem not_mem_fst_erase (l : List (Nat × Pending)) (k : Nat) (p : Pending)
    (hn : (l.map Prod.fst).Nodup) (hm : (k, p) ∈ l) :
    k ∉ (l.erase (k, p)).map Prod.fst := by
  induction l with
  | nil => simp at hm
  | cons x xs ih =>
    rw [List.map_cons, List.nodup_cons] at hn
    obtain ⟨hx, hxs⟩ := hn
    by_cases hxe : x = (k, p)
    · subst hxe
      simpa using hx
    · have hmem : (k, p) ∈ xs := by
        rcases List.mem_cons.mp hm with h | h
        · exact absurd h.symm hxe
        · exact h
      have hne : k ≠ x.1 := by
        intro hk
        apply hx
        rw [← hk]
        exact List.mem_map.mpr ⟨(k, p), hmem, rfl⟩
      have hbeq : (x == (k, p)) = false := by simpa using hxe
      rw [List.erase_cons, hbeq]
      simp only [Bool.false_eq_true, if_false, List.map_cons, List.mem_cons, not_or]
      exact ⟨hne, ih hxs hmem⟩

theorem nodup_fst_erase (l : List (Nat × Pending)) (e : Nat × Pending)
    (hn : (l.map Prod.fst).Nodup) : ((l.erase e).map Prod.fst).Nodup :=
  List.Nodup.sublist ((List.erase_sublist e l).map Prod.fst) hn

theorem inv_start (s : State) (p : Pending) (h : Inv s) :
    Inv { s with calls := s.calls + 1, pending := s.pending ++ [(s.calls, p)] } := by
  obtain ⟨hn, hlt⟩ := h
  constructor
  · simp only [List.map_append, List.map_cons, List.map_nil]
    rw [List.nodup_append]
    refine ⟨hn, List.nodup_singleton _, ?_⟩
    intro a ha hb
    rw [List.mem_singleton] at hb
    subst hb
    obtain ⟨e, he, hfst⟩ := List.mem_map.mp ha
    have hlt2 := hlt e he
    rw [hfst] at hlt2
    exact lt_irrefl _ hlt2
  · intro e he
    rcases List.mem_append.mp he with h1 | h1
    · exact Nat.lt_succ_of_lt (hlt e h1)
    · rw [List.mem_singleton] at h1
      subst h1
      exact Nat.lt_succ_self _

theorem inv_erase (s : State) (e : Nat × Pending) (h : Inv s) :
    Inv { s with pending := s.pending.erase e } :=
  ⟨nodup_fst_erase _ e h.1, fun x hx => h.2 x (List.mem_of_mem_erase hx)⟩

theorem inv_move (s : State) (k : Nat) (p q : Pending) (h : Inv s) (hm : (k, p) ∈ s.pending) :
    Inv { s with pending := s.pending.erase (k, p) ++ [(k, q)] } := by
  obtain ⟨hn, hlt⟩ := h
  constructor
  · simp only [List.map_append, List.map_cons, List.map_nil]
    rw [List.nodup_append]
    refine ⟨nodup_fst_erase _ _ hn, List.nodup_singleton _, ?_⟩
    intro a ha hb
    rw [List.mem_singleton] at hb
    subst hb
    exact not_mem_fst_erase _ _ p hn hm ha
  · intro e he
    rcases List.mem_append.mp he with h1 | h1
    · exact hlt e (List.mem_of_mem_erase h1)
    · rw [List.mem_singleton] at h1
      subst h1
      exact hlt (k, p) hm

theorem inv_congr {s t : State} (h : Inv s) (hp : t.pending = s.pending)
    (hc : t.calls = s.calls) : Inv t := by
  unfold Inv at *
  rw [hp, hc]
  exact h

theorem StartPoseTracking_pending (s : State) (d : String) :
    (StartPoseTracking s d).pending = s.pending ++ [(s.calls, .getUserMedia)] ∧
    (StartPoseTracking s d).calls = s.calls + 1 ∧
    (StartPoseTracking s d).sent = s.sent ∧
    (StartPoseTracking s d).firstFrameSent = false ∧
    (StartPoseTracking s d).canvas = s.canvas ∧
    (StartPoseTracking s d).unityInstance = s.unityInstance ∧
    (StartPoseTracking s d).detector = s.detector := by
  unfold StartPoseTracking setupCamera ensureVideo releaseStream
  dsimp only
  cases hv : s.video with
  | none => simp
  | some v =>
    cases hsrc : v.srcObject with
    | none => simp [hsrc]
    | some i => simp [hsrc]

/-- What a step does to the suspended continuations: a start command adds one for a new call;
any other event removes the continuation it resumes and adds at most one for the same
call. -/
theorem step_pending (s s1 : State) (e : Event) (h : step s e = some s1) :
    (s1.calls = s.calls + 1 ∧ ∃ p, s1.pending = s.pending ++ [(s.calls, p)]) ∨
    (s1.calls = s.calls ∧ (s1.pending = s.pending ∨
      ∃ k p, (k, p) ∈ s.pending ∧ (s1.pending = s.pending.erase (k, p) ∨
        ∃ q, s1.pending = s.pending.erase (k, p) ++ [(k, q)]))) := by
  cases e with
  | RegisterUnityInstance a =>
    simp only [step, Option.some.injEq] at h
    subst h
    exact Or.inr ⟨rfl, Or.inl rfl⟩
  | StartPoseTracking d =>
    simp only [step, Option.some.injEq] at h
    subst h
    exact Or.inl ⟨(StartPoseTracking_pending s d).2.1, _, (StartPoseTracking_pending s d).1⟩
  | getUserMediaResolve k n =>
    by_cases hk : (k, Pending.getUserMedia) ∈ s.pending
    · simp only [step, resume, hk, if_true, Option.map_some', Option.some.injEq] at h
      subst h
      exact Or.inr ⟨rfl, Or.inr ⟨k, _, hk, Or.inr ⟨_, rfl⟩⟩⟩
    · simp [step, resume, hk] at h
  | getUserMediaReject k err env =>
    by_cases hk : (k, Pending.getUserMedia) ∈ s.pending
    · rw [step_getUserMediaReject s k err env hk, Option.some.injEq] at h
      subst h
      unfold afterSetupCamera
      split
      · exact Or.inr ⟨rfl, Or.inr ⟨k, _, hk, Or.inr ⟨_, rfl⟩⟩⟩
      · obtain ⟨h1, h2, _⟩ := detectPose_pending
          (logSetupError { s with pending := s.pending.erase (k, .getUserMedia) } err) k env
        refine Or.inr ⟨h2, Or.inr ⟨k, _, hk, ?_⟩⟩
        rw [h1]
        split
        · exact Or.inr ⟨_, rfl⟩
        · exact Or.inr ⟨_, rfl⟩
        · exact Or.inl (by simp [logSetupError])
    · simp [step, resume, hk] at h
  | metadataPlayed k env =>
    by_cases hk : (k, Pending.loadedmetadata) ∈ s.pending
    · simp only [step, resume, hk, if_true, Option.map_some', Option.some.injEq] at h
      subst h
      unfold afterSetupCamera
      split
      · exact Or.inr ⟨rfl, Or.inr ⟨k, _, hk, Or.inr ⟨_, rfl⟩⟩⟩
      · obtain ⟨h1, h2, _⟩ := detectPose_pending
          (sizeCanvas { s with pending := s.pending.erase (k, .loadedmetadata) } env) k env
        refine Or.inr ⟨h2, Or.inr ⟨k, _, hk, ?_⟩⟩
        rw [h1]
        split
        · exact Or.inr ⟨_, rfl⟩
        · exact Or.inr ⟨_, rfl⟩
        · exact Or.inl (by simp [sizeCanvas])
    · simp [step, resume, hk] at h
  | loadDetectorSettle k loaded env =>
    by_cases hk : (k, Pending.loadDetector) ∈ s.pending
    · rw [step_loadDetectorSettle s k loaded env hk, Option.some.injEq] at h
      subst h
      obtain ⟨h1, h2, _⟩ := detectPose_pending
        (loadDetector { s with pending := s.pending.erase (k, .loadDetector) } loaded)
        k env
      have hp : (loadDetector
          { s with pending := s.pending.erase (k, .loadDetector) } loaded).pending =
          s.pending.erase (k, .loadDetector) := by
        cases loaded <;> rfl
      have hc : (loadDetector
          { s with pending := s.pending.erase (k, .loadDetector) } loaded).calls = s.calls := by
        cases loaded <;> rfl
      refine Or.inr ⟨h2.trans hc, Or.inr ⟨k, _, hk, ?_⟩⟩
      rw [h1, hp]
      split
      · exact Or.inr ⟨_, rfl⟩
      · exact Or.inr ⟨_, rfl⟩
      · exact Or.inl (by simp)
    · simp [step, resume, hk] at h
  | animationFrame k env =>
    by_cases hk : (k, Pending.animationFrame) ∈ s.pending
    · rw [step_animationFrame s k env hk, Option.some.injEq] at h
      subst h
      obtain ⟨h1, h2, _⟩ := detectPose_pending
        { s with pending := s.pending.erase (k, .animationFrame) } k env
      refine Or.inr ⟨h2, Or.inr ⟨k, _, hk, ?_⟩⟩
      rw [h1]
      split
      · exact Or.inr ⟨_, rfl⟩
      · exact Or.inr ⟨_, rfl⟩
      · exact Or.inl (by simp)
    · simp [step, resume, hk] at h
  | estimatePosesSettle k r st =>
    by_cases hk : (k, Pending.estimatePoses) ∈ s.pending
    · rw [step_estimatePosesSettle s k r st hk, Option.some.injEq] at h
      subst h
      obtain ⟨h1, h2, _⟩ := detectPoseAfter_pending
        { s with pending := s.pending.erase (k, .estimatePoses) } k r st
      exact Or.inr ⟨h2, Or.inr ⟨k, _, hk, Or.inr ⟨_, h1⟩⟩⟩
    · simp [step, resume, hk] at h

theorem step_inv (s s1 : State) (e : Event) (h : step s e = some s1) (hi : Inv s) : Inv s1 := by
  rcases step_pending s s1 e h with ⟨hc, p, hp⟩ | ⟨hc, hp | ⟨k, p, hk, hp | ⟨q, hp⟩⟩⟩
  · exact inv_congr (inv_start s p hi) hp hc
  · exact inv_congr hi hp hc
  · exact inv_congr (inv_erase s (k, p) hi) hp hc
  · exact inv_congr (inv_move s k p q hi hk) hp hc

theorem step_calls (s s1 : State) (e : Event) (h : step s e = some s1) :
    s1.calls = s.calls + (if isStart e then 1 else 0) := by
  cases e with
  | StartPoseTracking d =>
    simp only [step, Option.some.injEq] at h
    subst h
    simpa [isStart] using (StartPoseTracking_pending s d).2.1
  | RegisterUnityInstance a =>
    simp only [step, Option.some.injEq] at h
    subst h
    simp [isStart, RegisterUnityInstance]
  | getUserMediaResolve k n =>
    by_cases hk : (k, Pending.getUserMedia) ∈ s.pending
    · simp only [step, resume, hk, if_true, Option.map_some', Option.some.injEq] at h
      subst h
      simp [isStart, attachStream]
    · simp [step, resume, hk] at h
  | getUserMediaReject k err env =>
    by_cases hk : (k, Pending.getUserMedia) ∈ s.pending
    · rw [step_getUserMediaReject s k err env hk, Option.some.injEq] at h
      subst h
      unfold afterSetupCamera
      split
      · simp [isStart, logSetupError]
      · rw [(detectPose_pending _ k env).2.1]
        simp [isStart, logSetupError]
    · simp [step, resume, hk] at h
  | metadataPlayed k env =>
    by_cases hk : (k, Pending.loadedmetadata) ∈ s.pending
    · simp only [step, resume, hk, if_true, Option.map_some', Option.some.injEq] at h
      subst h
      unfold afterSetupCamera
      split
      · simp [isStart, sizeCanvas]
      · rw [(detectPose_pending _ k env).2.1]
        simp [isStart, sizeCanvas]
    · simp [step, resume, hk] at h
  | loadDetectorSettle k loaded env =>
    by_cases hk : (k, Pending.loadDetector) ∈ s.pending
    · rw [step_loadDetectorSettle s k loaded env hk, Option.some.injEq] at h
      subst h
      rw [(detectPose_pending _ k env).2.1]
      cases loaded <;> simp [isStart, loadDetector]
    · simp [step, resume, hk] at h
  | animationFrame k env =>
    by_cases hk : (k, Pending.animationFrame) ∈ s.pending
    · rw [step_animationFrame s k env hk, Option.some.injEq] at h
      subst h
      rw [(detectPose_pending _ k env).2.1]
      simp [isStart]
    · simp [step, resume, hk] at h
  | estimatePosesSettle k r st =>
    by_cases hk : (k, Pending.estimatePoses) ∈ s.pending
    · rw [step_estimatePosesSettle s k r st hk, Option.some.injEq] at h
      subst h
      rw [(detectPoseAfter_pending _ k r st).2.1]
      simp [isStart]
    · simp [step, resume, hk] at h

theorem run_inv (es : List Event) (s s1 : State) (h : run s es = some s1) (hi : Inv s) :
    Inv s1 ∧ s1.calls = s.calls + starts es := by
  induction es generalizing s with
  | nil =>
    simp only [run, Option.some.injEq] at h
    subst h
    exact ⟨hi, by simp [starts]⟩
  | cons e rest ih =>
    simp only [run] at h
    cases hs : step s e with
    | none => simp [hs] at h
    | some s2 =>
      rw [hs, Option.some_bind] at h
      obtain ⟨h1, h2⟩ := ih s2 h (step_inv s s2 e hs hi)
      refine ⟨h1, ?_⟩
      rw [h2, step_calls s s2 e hs]
      by_cases hst : isStart e = true
      · simp [starts, List.filter_cons, hst]
        omega
      · simp [starts, List.filter_cons, hst]

theorem length_le_of_nodup_lt (l : List Nat) (n : Nat) (hn : l.Nodup) (hlt : ∀ x ∈ l, x < n) :
    l.length ≤ n := by
  have hsub : l.toFinset ⊆ Finset.range n := by
    intro x hx
    exact Finset.mem_range.mpr (hlt x (List.mem_toFinset.mp hx))
  have hcard := Finset.card_le_card hsub
  rw [List.toFinset_card_of_nodup hn, Finset.card_range] at hcard
  exact hcard

theorem inv_init : Inv init := by
  constructor
  · simp [init]
  · intro e he
    simp [init] at he

/-- C5, as the code has it: in every state reached from the initial one, no
`StartPoseTracking` call has more than one suspended continuation, so each loop has at most
one tick scheduled or executing; the inferences in flight are at most the ticks, and the
ticks are at most the start commands issued.  With a single start command there is at most
one tick and one inference. -/
theorem C5_one_tick_per_loop (es : List Event) (s : State) (h : run init es = some s) :
    (∀ k, (s.pending.map Prod.fst).count k ≤ 1) ∧ inferences s ≤ ticks s ∧
    ticks s ≤ starts es := by
  obtain ⟨⟨hn, hlt⟩, hc⟩ := run_inv es init s h inv_init
  refine ⟨fun k => List.nodup_iff_count_le_one.mp hn k, ?_, ?_⟩
  · unfold inferences ticks
    apply List.Sublist.length_le
    apply List.monotone_filter_right
    intro e he
    simp only [decide_eq_true_eq] at he
    simp [he]
  · have hlen : s.pending.length ≤ s.calls := by
      have := length_le_of_nodup_lt (s.pending.map Prod.fst) s.calls hn (by
        intro x hx
        obtain ⟨e, he, hfst⟩ := List.mem_map.mp hx
        rw [← hfst]
        exact hlt e he)
      simpa using this
    have hcalls : s.calls = starts es := by
      rw [hc]
      simp [init]
    calc ticks s ≤ s.pending.length := List.length_filter_le _ _
      _ ≤ s.calls := hlen
      _ = starts es := hcalls

/-- One start command whose first tick is awaiting its inference, then the host registers:
the state reached is `streaming`. -/
theorem C5_one_tick_per_loop_witness :
    run init (oneLoopTrace ++ [.RegisterUnityInstance true]) = some streaming ∧
    (∀ k, (streaming.pending.map Prod.fst).count k ≤ 1) ∧
    inferences streaming ≤ ticks streaming ∧
    ticks streaming ≤ starts (oneLoopTrace ++ [.RegisterUnityInstance true]) :=
  ⟨by with_unfolding_all decide,
   C5_one_tick_per_loop (oneLoopTrace ++ [.RegisterUnityInstance true]) streaming
    (by with_unfolding_all decide)⟩

/-- C5 fails as stated: a second start command issued while the first loop runs starts a
second loop and leaves the first one running.  After `twoLoopsTrace` two ticks are executing
and two `estimatePoses` calls are in flight, one of loop 0 and one of loop 1. -/
theorem C5_two_loops_running :
    (run init twoLoopsTrace).map (fun s => (s.pending, ticks s, inferences s)) =
      some ([(0, .estimatePoses), (1, .estimatePoses)], 2, 2) := by
  with_unfolding_all decide

/-! ## The `OnCameraReady` signal (C6) -/

theorem readies_append (a b : List (Nat × Msg)) : readies (a ++ b) = readies a + readies b := by
  simp [readies, List.filter_append]

theorem readyStep_of_eq {s s1 : State} (hs : s1.sent = s.sent)
    (hf : s1.firstFrameSent = s.firstFrameSent) : ReadyStep s s1 := by
  unfold ReadyStep
  rw [hs, hf]
  cases s.firstFrameSent <;> simp

theorem readyStep_trans (s s1 s2 : State) (h1 : ReadyStep s s1) (h2 : ReadyStep s1 s2) :
    ReadyStep s s2 := by
  unfold ReadyStep at *
  obtain ⟨a1, b1⟩ := h1
  obtain ⟨a2, b2⟩ := h2
  cases hf : s.firstFrameSent <;> cases hf1 : s1.firstFrameSent <;>
    cases hf2 : s2.firstFrameSent <;> simp_all

theorem detectPoseBegin_ready (s : State) (k : Nat) (env : TickEnv) :
    readies (tagged k (detectPoseBegin s env).2.1) =
      (if s.firstFrameSent then 0 else if (detectPoseBegin s env).1.firstFrameSent then 1
        else 0) ∧
    (s.firstFrameSent = true → (detectPoseBegin s env).1.firstFrameSent = true) := by
  unfold detectPoseBegin
  split
  · cases hf : s.firstFrameSent <;> simp [readies, tagged]
  · split
    · cases hf : s.firstFrameSent <;> simp [readies, tagged]
    · split
      · cases hf : s.firstFrameSent <;> simp [readies, tagged, hf]
      · dsimp only
        split
        · split
          · cases hf : s.firstFrameSent <;> simp [readies, tagged, hf]
          · split
            · split
              · cases hf : s.firstFrameSent <;> simp_all [readies, tagged]
              · cases hf : s.firstFrameSent <;> simp_all [readies, tagged]
            · cases hf : s.firstFrameSent <;> simp_all [readies, tagged]
        · cases hf : s.firstFrameSent <;> simp [readies, tagged, hf]

theorem detectPose_firstFrameSent (s : State) (k : Nat) (env : TickEnv) :
    (detectPose s k env).firstFrameSent = (detectPoseBegin s env).1.firstFrameSent := by
  unfold detectPose
  rcases detectPoseBegin s env with ⟨s1, ms, o⟩
  cases o <;> rfl

theorem detectPose_readyStep (s : State) (k : Nat) (env : TickEnv) :
    ReadyStep s (detectPose s k env) := by
  obtain ⟨h1, h2⟩ := detectPoseBegin_ready s k env
  unfold ReadyStep
  rw [detectPose_firstFrameSent, (detectPose_pending s k env).2.2.2.2, readies_append, h1]
  exact ⟨rfl, h2⟩

theorem detectPoseAfter_readyStep (s : State) (k : Nat) (r : Except String (List Pose))
    (st : Msg → Bool) : ReadyStep s (detectPoseAfter s k r st) := by
  obtain ⟨_, _, _, hf, hs⟩ := detectPoseAfter_pending s k r st
  unfold ReadyStep
  rw [hf, hs, readies_append]
  have hz : readies (tagged k (detectPoseResume s r st).2) = 0 := by
    rcases detectPoseResume_msgs s r st with h | ⟨foot, c, _, _, _, h⟩ <;> rw [h] <;>
      simp [readies, tagged, OpenCVJS.normalize]
  rw [hz]
  cases s.firstFrameSent <;> simp

theorem afterSetupCamera_readyStep (s : State) (k : Nat) (env : TickEnv) :
    ReadyStep s (afterSetupCamera s k env) := by
  unfold afterSetupCamera
  split
  · exact readyStep_of_eq rfl rfl
  · exact detectPose_readyStep s k env

theorem step_readyStep (s s1 : State) (e : Event) (hns : isStart e = false)
    (h : step s e = some s1) : ReadyStep s s1 := by
  cases e with
  | StartPoseTracking d => simp [isStart] at hns
  | RegisterUnityInstance a =>
    simp only [step, Option.some.injEq] at h
    subst h
    exact readyStep_of_eq rfl rfl
  | getUserMediaResolve k n =>
    by_cases hk : (k, Pending.getUserMedia) ∈ s.pending
    · simp only [step, resume, hk, if_true, Option.map_some', Option.some.injEq] at h
      subst h
      exact readyStep_of_eq rfl rfl
    · simp [step, resume, hk] at h
  | getUserMediaReject k err env =>
    by_cases hk : (k, Pending.getUserMedia) ∈ s.pending
    · rw [step_getUserMediaReject s k err env hk, Option.some.injEq] at h
      subst h
      exact readyStep_trans _ (logSetupError
        { s with pending := s.pending.erase (k, .getUserMedia) } err) _
        (readyStep_of_eq rfl rfl) (afterSetupCamera_readyStep _ k env)
    · simp [step, resume, hk] at h
  | metadataPlayed k env =>
    by_cases hk : (k, Pending.loadedmetadata) ∈ s.pending
    · simp only [step, resume, hk, if_true, Option.map_some', Option.some.injEq] at h
      subst h
      exact readyStep_trans _ (sizeCanvas
        { s with pending := s.pending.erase (k, .loadedmetadata) } env) _
        (readyStep_of_eq rfl rfl) (afterSetupCamera_readyStep _ k env)
    · simp [step, resume, hk] at h
  | loadDetectorSettle k loaded env =>
    by_cases hk : (k, Pending.loadDetector) ∈ s.pending
    · rw [step_loadDetectorSettle s k loaded env hk, Option.some.injEq] at h
      subst h
      exact readyStep_trans _ (loadDetector
        { s with pending := s.pending.erase (k, .loadDetector) } loaded) _
        (readyStep_of_eq (by cases loaded <;> rfl) (by cases loaded <;> rfl))
        (detectPose_readyStep _ k env)
    · simp [step, resume, hk] at h
  | animationFrame k env =>
    by_cases hk : (k, Pending.animationFrame) ∈ s.pending
    · rw [step_animationFrame s k env hk, Option.some.injEq] at h
      subst h
      exact readyStep_trans _ ({ s with pending := s.pending.erase (k, .animationFrame) }) _
        (readyStep_of_eq rfl rfl) (detectPose_readyStep _ k env)
    · simp [step, resume, hk] at h
  | estimatePosesSettle k r st =>
    by_cases hk : (k, Pending.estimatePoses) ∈ s.pending
    · rw [step_estimatePosesSettle s k r st hk, Option.some.injEq] at h
      subst h
      exact readyStep_trans _ ({ s with pending := s.pending.erase (k, .estimatePoses) }) _
        (readyStep_of_eq rfl rfl) (detectPoseAfter_readyStep _ k r st)
    · simp [step, resume, hk] at h

theorem run_readyStep (es : List Event) (s s1 : State) (hns : starts es = 0)
    (h : run s es = some s1) : ReadyStep s s1 := by
  induction es generalizing s with
  | nil =>
    simp only [run, Option.some.injEq] at h
    subst h
    exact readyStep_of_eq rfl rfl
  | cons e rest ih =>
    have he : isStart e = false := by
      by_contra hne
      have ht : isStart e = true := by simpa using hne
      simp [starts, List.filter_cons, ht] at hns
    have hrest : starts rest = 0 := by
      simpa [starts, List.filter_cons, he] using hns
    simp only [run] at h
    cases hs : step s e with
    | none => simp [hs] at h
    | some s2 =>
      rw [hs, Option.some_bind] at h
      exact readyStep_trans _ _ _ (step_readyStep s s2 e he hs) (ih s2 hrest h)

/-- C6, as the code has it.  A start command resets `firstFrameSent` to `false`.  From then
on, over any events up to the next start command, `OnCameraReady` is sent exactly once if
`firstFrameSent` has become `true` and not at all otherwise, whichever loops the ticks
belong to.  The tick that sends it is the first one that delivers a frame: a tick that
begins with a host attached and `firstFrameSent = false`, and that reaches the inference,
sends the frame and then `OnCameraReady` and sets `firstFrameSent`. -/
theorem C6_ready_once_per_start (s s2 : State) (d : String) (es : List Event)
    (hes : starts es = 0) (hrun : run (StartPoseTracking s d) es = some s2) :
    (StartPoseTracking s d).firstFrameSent = false ∧
    readies s2.sent = readies s.sent + (if s2.firstFrameSent then 1 else 0) ∧
    (∀ t env, t.unityInstance = true → t.firstFrameSent = false →
      (detectPoseBegin t env).2.2 = .suspended →
      ∃ b, (detectPoseBegin t env).2.1 = [.OnReceiveVideoFrame b, .OnCameraReady] ∧
        (detectPoseBegin t env).1.firstFrameSent = true) := by
  obtain ⟨_, _, hsent, hflag, _⟩ := StartPoseTracking_pending s d
  refine ⟨hflag, ?_, ?_⟩
  · obtain ⟨h1, _⟩ := run_readyStep es _ s2 hes hrun
    rw [hsent, hflag] at h1
    simpa using h1
  · intro t env hu hf
    unfold detectPoseBegin
    split
    · simp
    · split
      · simp
      · split
        · simp
        · dsimp only
          rw [if_pos hu]
          split
          · simp
          · simp only [hf, Bool.not_false, if_true]
            split
            · simp
            · intro _
              exact ⟨_, rfl, rfl⟩

/-- After a start command with a host attached, two ticks deliver a frame and
`OnCameraReady` is sent once. -/
theorem C6_ready_once_per_start_witness :
    ∃ s2, run (StartPoseTracking (RegisterUnityInstance init true) "cam-1") afterStartTrace =
        some s2 ∧ s2.firstFrameSent = true ∧
      readies s2.sent = readies [] + (if s2.firstFrameSent then 1 else 0) := by
  have hflag : (run (StartPoseTracking (RegisterUnityInstance init true) "cam-1")
      afterStartTrace).map (fun s => s.firstFrameSent) = some true := by
    with_unfolding_all decide
  cases h2 : run (StartPoseTracking (RegisterUnityInstance init true) "cam-1")
      afterStartTrace with
  | none =>
    rw [h2] at hflag
    exact Option.noConfusion hflag
  | some s2 =>
    rw [h2, Option.map_some', Option.some.injEq] at hflag
    exact ⟨s2, rfl, hflag,
      (C6_ready_once_per_start (RegisterUnityInstance init true) s2 "cam-1" afterStartTrace
        (by decide) h2).2.1⟩

/-- C6 fails as stated: after a device switch the old loop is still running and shares
`firstFrameSent` with the new one.  In `switchTrace` loop 0 sends `OnCameraReady` on its
first frame and, after the second start command has reset the flag, a second time; loop 1
then delivers its first frame and never sends `OnCameraReady`. -/
theorem C6_old_loop_sends_ready_again :
    (run init switchTrace).map (fun s => s.sent) =
      some [(0, .OnReceiveVideoFrame "data:image/jpeg"), (0, .OnCameraReady),
        (0, .OnReceiveVideoFrame "data:image/jpeg"), (0, .OnCameraReady),
        (1, .OnReceiveVideoFrame "data:image/jpeg")] := by
  with_unfolding_all decide

/-! ## A start command while a loop runs (C4) and overlapping acquisitions (C8) -/

/-- Lines 52-55 in every start command: when `getUserMedia` is requested the handle is
cleared, and the stream it referred to has no live track; without an active stream the
streams are left as they are. -/
theorem StartPoseTracking_releases (s : State) (d : String) :
    (StartPoseTracking s d).video = some { srcObject := none } ∧
    (∀ v i st, s.video = some v → v.srcObject = some i →
      (StartPoseTracking s d).streams[i]? = some st → st.tracks.any id = false) ∧
    ((∀ v, s.video = some v → v.srcObject = none) →
      (StartPoseTracking s d).streams = s.streams) := by
  unfold StartPoseTracking setupCamera ensureVideo releaseStream
  dsimp only
  cases hv : s.video with
  | none => simp
  | some v =>
    cases hsrc : v.srcObject with
    | none =>
      cases v with
      | mk src =>
        simp only at hsrc
        subst hsrc
        simp only [Option.some.injEq, true_and, implies_true, and_true]
        intro v1 i st h1 h2
        subst h1
        exact Option.noConfusion h2
    | some i =>
      simp only [hsrc, Option.some.injEq, forall_eq', true_and]
      constructor
      · intro v1 j st hv1 hj
        subst hv1
        rw [hsrc, Option.some.injEq] at hj
        subst hj
        unfold stopTracks
        cases hget : s.streams[i]? with
        | none => simp [hget]
        | some st0 =>
          have hlt : i < s.streams.length := by
            by_contra hge
            rw [List.getElem?_eq_none (not_lt.mp hge)] at hget
            exact Option.noConfusion hget
          simp only [List.getElem?_set_self hlt, Option.some.injEq]
          intro hst
          subst hst
          simp
      · intro h
        simp at h

/-- C8 at its failing input: two start commands, the second issued before the acquisition
of the first has resolved.  Neither call finds an active stream to release; both
acquisitions resolve; the video refers to the second stream, and the first stream is still
live with no reference left to stop it: two acquired streams are live at once. -/
theorem C8_overlapping_starts_two_live :
    (run init overlappingStartsTrace).map (fun s => (s.streams, s.video, liveStreams s)) =
      some ([{ tracks := [true] }, { tracks := [true] }], some { srcObject := some 1 }, 2) := by
  with_unfolding_all decide

end OpenCVJS
